import Mathlib

/-!
Verification development for the image-restoration control plane.

This file gives a shallow embedding, in Lean 4, of the parts of the
Node.js source that the specification's claims are about:

* the BullMQ worker `processJob` (src/server-node/src/queues/workers/restorationWorker.js),
* the dead-letter integration (src/server-node/src/queues/restorationQueue.js and
  deadLetterQueue.js),
* the job-status projection `buildJobResponse` and the `POST /jobs` admission
  flow (routes file, jobs router),
* the credits service `checkAndDeduct` / `refund` and its Redis scripts
  (services/credits.js),
* the idempotency middleware and its payload fingerprint (middleware/idempotency.js),
* the shared retry helper `exponentialBackoff` / `calculateDelay` (utils/retry.js).

Conventions of the embedding:

* Firestore merge-writes (`.set(fields, merge true)`) become record-update
  functions that change exactly the fields named in the source call.
* Awaited external effects that can only succeed or fail (queue `add`,
  the restoration pipeline) become explicit outcome parameters.
* Redis values are integers; a Lua `eval` script is a single atomic step,
  while separate awaited Redis commands are separate atomic steps.
* SHA-256 is modelled as an injective function: the fingerprint is the exact
  string the source feeds into the hash, so fingerprints are equal exactly
  when the hashed inputs are equal.
-/

/-- Job status values used by the source (Firestore `status` field). -/
inductive JobStatus
  | queued
  | running
  | succeeded
  | failed
  deriving DecidableEq, Repr

/-- A Firestore job record in the `restorations` collection.  Fields are
`Option`s because merge-writes only ever set a subset of them; `none` means
the field is absent from the document. -/
structure JobRecord where
  status : Option JobStatus := none
  userId : Option String := none
  createdAt : Option Nat := none
  startedAt : Option Nat := none
  updatedAt : Option Nat := none
  attemptsMade : Option Nat := none
  prompt : Option String := none
  creditAmount : Option Int := none
  creditType : Option String := none
  preprocessing : Option String := none
  moderation : Option String := none
  timings : Option (List (String × Nat)) := none
  enhancedPrompt : Option String := none
  degradationAnalysis : Option String := none
  providerMetadata : Option String := none
  errorMessage : Option String := none
  errorStack : Option String := none
  resultObjectName : Option String := none
  deriving DecidableEq, Repr

/-- Payload of a queue task as enqueued by the jobs router:
`queue.add('restoration', ...)` carries jobId, userId, userPrompt, the
base64 image buffer, preprocessing info, creditsSpent, creditType and the
trace context. -/
structure TaskData where
  jobId : String
  userId : String
  userPrompt : Option String := none
  imageBuffer : Option String := none
  preprocessing : Option String := none
  creditsSpent : Int := 0
  creditType : String := "free"
  traceparent : Option String := none
  tracestate : Option String := none
  deriving DecidableEq, Repr

/-- Result of the restorator pipeline call inside the worker
(`services.restorator.restore`): either a successful restoration result or
an error (a thrown exception, or `success: false` which the worker converts
to a throw). -/
inductive RestoreOutcome
  | ok (timings : List (String × Nat)) (enhancedPrompt : String)
      (degradationAnalysis : String) (providerMetadata : String)
  | fail (message : String)
  deriving DecidableEq, Repr

/-- Worker merge-write at accept time (restorationWorker.js lines 118-123):
`set(status running, startedAt now, userId, attemptsMade, merge true)`.
It is executed unconditionally, with no check of the record's current
status. -/
def workerRunningWrite (t : TaskData) (attemptsMade : Nat) (now : Nat)
    (r : JobRecord) : JobRecord :=
  { r with
    status := some .running
    startedAt := some now
    userId := some t.userId
    attemptsMade := some attemptsMade }

/-- Worker merge-write on pipeline success (restorationWorker.js lines
136-144): `set(status succeeded, userId, timings, enhancedPrompt,
degradationAnalysis, providerMetadata, updatedAt, merge true)`.  Note that
no `resultObjectName` field is written. -/
def workerSucceededWrite (t : TaskData) (timings : List (String × Nat))
    (enhancedPrompt degradationAnalysis providerMetadata : String)
    (now : Nat) (r : JobRecord) : JobRecord :=
  { r with
    status := some .succeeded
    userId := some t.userId
    timings := some timings
    enhancedPrompt := some enhancedPrompt
    degradationAnalysis := some degradationAnalysis
    providerMetadata := some providerMetadata
    updatedAt := some now }

/-- Worker merge-write in the catch block (restorationWorker.js lines
174-182): `set(status failed, error message and stack, attemptsMade,
updatedAt, merge true)`. -/
def workerFailedWrite (message : String) (attemptsMade : Nat) (now : Nat)
    (r : JobRecord) : JobRecord :=
  { r with
    status := some .failed
    errorMessage := some message
    errorStack := some message
    attemptsMade := some attemptsMade
    updatedAt := some now }

deriving instance DecidableEq for Except

/-- Observable effects of one `processJob` invocation: the final state of the
job record, whether `services.credits.refund` was invoked, and the value
returned to (or error rethrown at) the queue engine. -/
structure WorkerEffects where
  record : JobRecord
  refunded : Bool
  result : Except String String
  deriving DecidableEq, Repr

/-- The worker's catch block (restorationWorker.js lines 162-201): write the
failed merge, refund when `creditsSpent > 0`, then rethrow the error. -/
def workerCatch (t : TaskData) (attemptsMade : Nat) (now : Nat)
    (message : String) (r : JobRecord) : WorkerEffects :=
  { record := workerFailedWrite message attemptsMade now r
    refunded := t.creditsSpent > 0
    result := .error message }

/-- Shallow embedding of `processJob` (restorationWorker.js lines 79-206).
The try block checks for the image buffer, merge-writes status running,
runs the pipeline, and on success merge-writes status succeeded and returns;
any throw lands in the catch block. `r` is the current job record,
`outcome` the pipeline's behaviour on this delivery. -/
def processJob (t : TaskData) (attemptsMade : Nat)
    (outcome : RestoreOutcome) (now : Nat) (r : JobRecord) : WorkerEffects :=
  match t.imageBuffer with
  | none => workerCatch t attemptsMade now "Job payload missing imageBuffer" r
  | some _ =>
    let r1 := workerRunningWrite t attemptsMade now r
    match outcome with
    | .ok timings ep da pm =>
      { record := workerSucceededWrite t timings ep da pm now r1
        refunded := false
        result := .ok t.jobId }
    | .fail message => workerCatch t attemptsMade now message r1

/-- Atomic actions a queue-side component can take, used to record what the
dead-letter path does and does not do. -/
inductive QueueAction
  | addToDeadLetterQueue
  | writeJobRecordFailed
  | removeFromMainQueue
  | refundCredits
  deriving DecidableEq, Repr

/-- Actions performed by `moveToDeadLetterQueue` (deadLetterQueue.js lines
52-106): add the DLQ job, then merge-write status failed with the failure
info onto the job document.  The function contains no call to
`credits.refund`. -/
def moveToDeadLetterQueue : List QueueAction :=
  [.addToDeadLetterQueue, .writeJobRecordFailed]

/-- Actions taken by the main queue's `failed` handler
(restorationQueue.js `setupDLQIntegration`, lines 43-59) when
`attemptsMade >= MAX_ATTEMPTS`: move to the DLQ, then remove the job from
the main queue. When attempts are not exhausted the handler does nothing. -/
def setupDLQIntegration (attemptsMade maxAttempts : Nat) : List QueueAction :=
  if attemptsMade ≥ maxAttempts then
    moveToDeadLetterQueue ++ [.removeFromMainQueue]
  else []

/-! ## Credits service (services/credits.js, `CreditsService`)

The model fixes one user and one UTC day: `free` is the value of the Redis
key `free_usage:<user>:<day>` (absent modelled as 0), `paid` the cached and
mirrored paid balance `credits:<user>`, and `ledger` the `credit_ledger`
collection in append order; a ledger entry's Firestore document id is its
index in that list.  Caching, TTLs and the asynchronous Firestore mirror do
not change the sequential semantics and are not modelled. -/

/-- Ledger entry `type` field values. -/
inductive TxType
  | free
  | paid
  | refund
  | purchase
  deriving DecidableEq, Repr

/-- A `credit_ledger` document as written by `_recordTransaction`. -/
structure LedgerEntry where
  userId : String
  jobId : String
  amount : Int
  type : TxType
  reason : String
  originalTransactionId : Option Nat := none
  deriving DecidableEq, Repr

/-- State touched by the credits service for one user on one day. -/
structure CreditsState where
  free : Int := 0
  paid : Int := 0
  ledger : List LedgerEntry := []
  deriving DecidableEq, Repr

/-- Result shape of `checkAndDeduct`. -/
structure DeductResult where
  allowed : Bool
  type : TxType
  remainingCredits : Int
  deriving DecidableEq, Repr

/-- Append a ledger document (`_recordTransaction`). -/
def _recordTransaction (s : CreditsState) (e : LedgerEntry) : CreditsState :=
  { s with ledger := s.ledger ++ [e] }

/-- The atomic Lua script of `_consumeFreeCredit` (credits.js lines 291-309)
applied to the free counter: if `current >= limit` it returns 0 (no change),
otherwise it increments and returns the new value.  On a positive return the
service appends a free debit of amount -1 to the ledger. -/
def _consumeFreeCredit (userId jobId : String) (limit : Int)
    (s : CreditsState) : Bool × CreditsState :=
  if s.free ≥ limit then
    (false, s)
  else
    (true, _recordTransaction { s with free := s.free + 1 }
      { userId := userId, jobId := jobId, amount := -1, type := .free
        reason := "Daily free credit consumed" })

/-- The atomic Lua script of `_checkAndDeductPaidCredits` (credits.js lines
346-359) applied to the paid balance: if `current < amount` it denies and
returns the unchanged balance, otherwise it stores and returns the
decremented balance.  On success the service appends a paid debit of amount
`-amount`. -/
def _checkAndDeductPaidCredits (userId : String) (amount : Int)
    (jobId : String) (s : CreditsState) : (Bool × Int) × CreditsState :=
  if s.paid < amount then
    ((false, s.paid), s)
  else
    ((true, s.paid - amount),
      _recordTransaction { s with paid := s.paid - amount }
        { userId := userId, jobId := jobId, amount := -amount, type := .paid
          reason := "Credit consumed for job" })

/-- `checkAndDeduct` (credits.js lines 39-134): consult the daily free usage;
below the daily limit, attempt the free-consume script, and on success
answer `allowed` with kind free; otherwise fall through to the paid
check-and-decrement. -/
def checkAndDeduct (userId : String) (amount : Int) (jobId : String)
    (dailyLimit : Int) (s : CreditsState) : DeductResult × CreditsState :=
  let used := s.free
  let viaPaid : CreditsState → DeductResult × CreditsState := fun s1 =>
    let ((ok, remaining), s2) := _checkAndDeductPaidCredits userId amount jobId s1
    ({ allowed := ok, type := .paid, remainingCredits := remaining }, s2)
  if used < dailyLimit then
    match _consumeFreeCredit userId jobId dailyLimit s with
    | (true, s1) =>
      ({ allowed := true, type := .free
         remainingCredits := dailyLimit - used - 1 }, s1)
    | (false, s1) => viaPaid s1
  else
    viaPaid s

/-- Lookup helper for `_getTransactionByJobId`, carrying the document index. -/
def findDebitFrom (i : Nat) (jobId : String) :
    List LedgerEntry → Option (Nat × LedgerEntry)
  | [] => none
  | e :: rest =>
    if e.jobId = jobId ∧ e.amount < 0 then some (i, e)
    else findDebitFrom (i + 1) jobId rest

/-- `_getTransactionByJobId` (credits.js lines 490-509): the first
`credit_ledger` document with the given job id and a negative amount
("only deductions, not refunds").  There is no filter on whether the debit
has already been refunded. -/
def _getTransactionByJobId (jobId : String) (s : CreditsState) :
    Option (Nat × LedgerEntry) :=
  findDebitFrom 0 jobId s.ledger

/-- `_refundFreeCredit` (credits.js lines 394-409), sequential semantics:
read the counter and decrement only when the read value is positive. -/
def _refundFreeCredit (s : CreditsState) : Bool × CreditsState :=
  if s.free > 0 then (true, { s with free := s.free - 1 })
  else (false, s)

/-- `_refundPaidCredits` (credits.js lines 411-429): unconditionally
increment the paid balance by the refund amount. -/
def _refundPaidCredits (amount : Int) (s : CreditsState) : Bool × CreditsState :=
  (true, { s with paid := s.paid + amount })

/-- `refund` (credits.js lines 144-218): look up the original debit by job
id; if none is found, fail without state change; otherwise refund the free
counter or the paid balance according to the debit's kind, and in either
case append a refund ledger entry (positive amount) referencing the debit. -/
def CreditsService.refund (userId jobId : String) (amount : Int)
    (reason : String) (s : CreditsState) : Bool × CreditsState :=
  match _getTransactionByJobId jobId s with
  | none => (false, s)
  | some (txId, tx) =>
    let (ok, s1) :=
      if tx.type = .free then _refundFreeCredit s
      else _refundPaidCredits amount s
    (ok, _recordTransaction s1
      { userId := userId, jobId := jobId, amount := amount, type := .refund
        reason := reason, originalTransactionId := some txId })

/-! ### Interleaved executions of the free-counter operations (for C9)

The consume script runs as one atomic Redis `eval`; the free refund issues
two separate awaited commands, `GET` then `DECR` (credits.js lines 399-401),
so a concurrent schedule can interleave other operations between them.
`FreeMicroOp` is the alphabet of atomic steps: a whole consume script, a
refund's read (tagged with a task id), and a refund's conditional decrement
(which consults the value that task previously read). -/

/-- Atomic steps on the free counter. -/
inductive FreeMicroOp
  | consume (limit : Int)
  | refundRead (tid : Nat)
  | refundDecr (tid : Nat)
  deriving DecidableEq, Repr

/-- Counter value plus the pending values read by in-flight refunds. -/
structure FreeMicroState where
  counter : Int := 0
  pending : List (Nat × Int) := []
  deriving DecidableEq, Repr

/-- One atomic step.  `consume` is the Lua script; `refundRead t` is the
refund's `GET`; `refundDecr t` performs the `DECR` exactly when the value
task `t` read earlier was positive (`if (current && parseInt(current) > 0)`). -/
def freeMicroStep (st : FreeMicroState) : FreeMicroOp → FreeMicroState
  | .consume limit =>
    if st.counter ≥ limit then st else { st with counter := st.counter + 1 }
  | .refundRead t => { st with pending := (t, st.counter) :: st.pending }
  | .refundDecr t =>
    match st.pending.lookup t with
    | some v =>
      if v > 0 then { st with counter := st.counter - 1 } else st
    | none => st

/-- Run a schedule of atomic steps. -/
def freeMicroExec (ops : List FreeMicroOp) (st : FreeMicroState) :
    FreeMicroState :=
  ops.foldl freeMicroStep st

/-- Sequential (non-overlapping) operations on the free counter: a whole
consume script, or a whole refund (read immediately followed by its
conditional decrement). -/
inductive FreeOp
  | consume
  | refundFree
  deriving DecidableEq, Repr

/-- Effect of one non-overlapping operation on the counter. -/
def freeSeqStep (limit : Int) (c : Int) : FreeOp → Int
  | .consume => if c ≥ limit then c else c + 1
  | .refundFree => if c > 0 then c - 1 else c

/-- Run a sequence of non-overlapping free-counter operations. -/
def freeSeqExec (limit : Int) (ops : List FreeOp) (c : Int) : Int :=
  ops.foldl (freeSeqStep limit) c

/-! ## Problem documents (utils/problem.js) -/

/-- A `Problem` value as constructed by `createProblem`: type URI, title,
numeric status, optional detail, and extension fields (`extras`) that are
spread into the response body. -/
structure Problem where
  type : String := "about:blank"
  title : String := "Error"
  status : Nat := 500
  detail : Option String := none
  extras : List (String × String) := []
  deriving DecidableEq, Repr

/-- The JSON body emitted by `problemResponse` (problem.js lines 24-46):
type, title, status, detail, instance (the request id when the problem
carries none), plus the spread extension fields. -/
structure ProblemBody where
  type : String
  title : String
  status : Nat
  detail : Option String
  reqInstance : String
  extras : List (String × String)
  deriving DecidableEq, Repr

/-- `problemResponse` body construction for a problem with no explicit
instance: `instance = requestId`, extras spread into the body. -/
def problemResponse (p : Problem) (requestId : String) : ProblemBody :=
  { type := p.type, title := p.title, status := p.status, detail := p.detail
    reqInstance := requestId, extras := p.extras }

/-- The problem thrown by the jobs router on a credit denial
(jobs router lines 197-204).  Note: no extension fields. -/
def insufficientCreditsProblem : Problem :=
  { type := "https://docs.image-restoration.ai/problem/insufficient-credits"
    title := "Insufficient Credits"
    status := 402
    detail := some "Additional credits are required to start a restoration job." }

/-- The problem produced by `errorHandler` (problem.js lines 48-73) for a
non-`Problem` thrown error, as happens when `queue.add` rejects. -/
def internalServerErrorProblem : Problem :=
  { type := "about:blank"
    title := "Internal Server Error"
    status := 500
    detail := some "An unexpected error occurred." }

/-! ## Idempotency middleware (middleware/idempotency.js) -/

/-- An HTTP request as seen by the idempotency middleware.  `jsonBody` is
`JSON.stringify(req.body)` when `req.body` is a non-empty object at that
point in the chain; for a multipart request the body parsers
(`express.json` / `express.urlencoded`) leave `req.body` empty and the
image part is parsed by multer only later inside the route handler, so
`jsonBody` is `none` and the uploaded bytes live in `imageBytes`, which the
middleware never reads. -/
structure ApiRequest where
  method : String := "POST"
  originalUrl : String := "/v1/jobs"
  user : String := ""
  idempotencyKey : Option String := none
  jsonBody : Option String := none
  imageBytes : Option (List Nat) := none
  deriving DecidableEq, Repr

/-- `hashPayload` (idempotency.js lines 9-23): SHA-256 over method, then
`originalUrl`, then the JSON-stringified body when the body object is
non-empty.  The hash is modelled as the concatenation it digests (an
injective stand-in), so two fingerprints are equal exactly when the hashed
byte streams are equal. -/
def hashPayload (req : ApiRequest) : String :=
  req.method ++ req.originalUrl ++ (req.jsonBody.getD "")

/-- ASCII lowercase of a character (model of JavaScript `toLowerCase` on
the ASCII header names involved here). -/
def lowerChar (c : Char) : Char :=
  if 'A' ≤ c ∧ c ≤ 'Z' then Char.ofNat (c.toNat + 32) else c

/-- ASCII lowercase of a string. -/
def lowerString (s : String) : String :=
  String.mk (s.toList.map lowerChar)

/-- Hex-digit test for the key format check. -/
def isHexDigit (c : Char) : Bool :=
  c.isDigit || ('a' ≤ c && c ≤ 'f') || ('A' ≤ c && c ≤ 'F')

/-- The canonical-key regex of idempotency.js line 73
(`8-4-4-4-12` lowercase-or-uppercase hex groups separated by dashes). -/
def validKeyFormat (s : String) : Bool :=
  let cs := s.toList
  cs.length == 36 &&
    (List.range 36).all fun i =>
      let c := cs.getD i ' '
      if i == 8 || i == 13 || i == 18 || i == 23 then c == '-'
      else isHexDigit c

/-- A stored idempotency entry: the payload fingerprint plus the captured
canonical response (status, headers, body, json flag). -/
structure IdemEntry where
  payloadHash : String
  status : Nat
  headers : List (String × String)
  body : String
  isJson : Bool
  deriving DecidableEq, Repr

/-- The idempotency store as the middleware uses it: a map whose key is the
`Idempotency-Key` header value alone (`backingStore.get(key)` /
`backingStore.set(key, ...)`); no other component enters the key. -/
def IdemStore := List (String × IdemEntry)

/-- What the middleware does with a request before the route handler runs. -/
inductive IdemDecision
  | problem (p : Problem)
  | replay (status : Nat) (headers : List (String × String)) (body : String)
  | proceed
  deriving DecidableEq, Repr

/-- The 400 problem for a missing key (idempotency.js lines 63-71). -/
def idempotencyKeyMissingProblem : Problem :=
  { type := "https://docs.image-restoration.ai/problem/idempotency-key-missing"
    title := "Idempotency Key Required"
    status := 400
    detail := some "The Idempotency-Key header is required for this endpoint." }

/-- The 400 problem for a malformed key (idempotency.js lines 74-81). -/
def idempotencyKeyInvalidProblem : Problem :=
  { type := "https://docs.image-restoration.ai/problem/idempotency-key-invalid"
    title := "Invalid Idempotency Key"
    status := 400
    detail := some "The Idempotency-Key header must be a valid token." }

/-- The 409 problem for a fingerprint mismatch (idempotency.js lines 89-96). -/
def idempotencyConflictProblem : Problem :=
  { type := "https://docs.image-restoration.ai/problem/idempotency-conflict"
    title := "Idempotency Conflict"
    status := 409
    detail := some "A request with the same Idempotency-Key but different payload already exists." }

/-- `idempotencyHandler`, the middleware function (idempotency.js lines
56-139): non-POST requests pass through; a missing or malformed key is a
400 problem; a cached entry under the key replays the stored response
(status, headers minus content-length, body) when the fingerprint matches
and is a 409 conflict when it does not; a miss proceeds to the route
handler.  The store lookup uses the header value alone — the requesting
user's identity plays no part. -/
def idempotencyHandler (store : IdemStore) (req : ApiRequest) : IdemDecision :=
  if req.method ≠ "POST" then .proceed
  else
    match req.idempotencyKey with
    | none => .problem idempotencyKeyMissingProblem
    | some key =>
      if ¬ validKeyFormat key then .problem idempotencyKeyInvalidProblem
      else
        match store.lookup key with
        | some cached =>
          if cached.payloadHash ≠ hashPayload req then
            .problem idempotencyConflictProblem
          else
            .replay cached.status
              (cached.headers.filter fun h => lowerString h.1 ≠ "content-length")
              cached.body
        | none => .proceed

/-- The `finish` hook installed on a store miss (idempotency.js lines
115-136): once the route handler's response is known, write the entry iff
the final status is in `[200, 500)`. -/
def idempotencyOnFinish (store : IdemStore) (key : String)
    (req : ApiRequest) (status : Nat) (headers : List (String × String))
    (body : String) (isJson : Bool) : IdemStore :=
  if 200 ≤ status ∧ status < 500 then
    (key, { payloadHash := hashPayload req, status := status
            headers := headers, body := body, isJson := isJson }) :: store
  else store

/-- Express semantics of `router.post('/jobs', idempotencyMiddleware, handler)`:
the route handler (and hence the admission that could create or change job
records) runs only when the middleware calls `next()` with no error, i.e.
only on a `.proceed` decision.  `admission` is the job-record effect of the
route handler. -/
def jobsRouteRecords (store : IdemStore) (req : ApiRequest)
    (admission : List (String × JobRecord) → List (String × JobRecord))
    (jobs : List (String × JobRecord)) : List (String × JobRecord) :=
  match idempotencyHandler store req with
  | .proceed => admission jobs
  | _ => jobs

/-! ## Jobs router: admission and status surface (jobs router file) -/

/-- Ledger `type` rendered as the string stored on the job record's credit
field (`creditResult.type`). -/
def TxType.name : TxType → String
  | .free => "free"
  | .paid => "paid"
  | .refund => "refund"
  | .purchase => "purchase"

/-- The job record created at admission (jobs router lines 209-223):
status queued, owner, creation time, prompt, credit debit info,
preprocessing record and moderation verdict. -/
def admissionQueuedRecord (userId : String) (now : Nat)
    (prompt : Option String) (creditAmount : Int) (creditType : String)
    (preprocessing moderation : Option String) : JobRecord :=
  { status := some .queued
    userId := some userId
    createdAt := some now
    prompt := prompt
    creditAmount := some creditAmount
    creditType := some creditType
    preprocessing := preprocessing
    moderation := moderation }

/-- Outcome of the `POST /jobs` route handler: the 202 acceptance or a
problem forwarded to `errorHandler` via `next(error)`. -/
inductive SubmitResult
  | accepted (status : Nat) (location : String) (jobId : String)
      (creditAmount : Int) (creditType : String)
  | problemResult (p : Problem)
  deriving DecidableEq, Repr

/-- Shallow embedding of the `POST /jobs` handler (jobs router lines
117-284) from the point of view of the credits state and the job-record
collection.  `earlyFailure` stands for a problem thrown by the stages
before the credit check (upload validation, preprocessing, moderation,
payload decoding); at that point `creditsReserved` is still 0 and no job id
has been allocated, so the catch block refunds nothing.  After a successful
debit (`creditsReserved := creditCost`) the queued record is created and
the task enqueued; when `queue.add` rejects (`enqueueOk = false`) the catch
block refunds the debit — and only refunds: it performs no write to the job
record — and forwards the error, which `errorHandler` renders as a 500
problem. -/
def submitJob (userId : String) (earlyFailure : Option Problem)
    (userPrompt : Option String) (jobId : String) (creditCost : Int)
    (dailyLimit : Int) (preprocessing moderation : Option String)
    (enqueueOk : Bool) (now : Nat) (s : CreditsState)
    (jobs : List (String × JobRecord)) :
    SubmitResult × CreditsState × List (String × JobRecord) :=
  match earlyFailure with
  | some p => (.problemResult p, s, jobs)
  | none =>
    let (creditResult, s1) := checkAndDeduct userId creditCost jobId dailyLimit s
    if ¬ creditResult.allowed then
      (.problemResult insufficientCreditsProblem, s1, jobs)
    else
      let creditType := creditResult.type.name
      let record := admissionQueuedRecord userId now userPrompt creditCost
        creditType preprocessing moderation
      let jobs1 := (jobId, record) :: jobs
      if enqueueOk then
        (.accepted 202 ("/v1/jobs/" ++ jobId) jobId creditCost creditType,
          s1, jobs1)
      else if creditCost > 0 then
        let (_, s2) := CreditsService.refund userId jobId creditCost
          "Job enqueue failed" s1
        (.problemResult internalServerErrorProblem, s2, jobs1)
      else
        (.problemResult internalServerErrorProblem, s1, jobs1)

/-- The result block of the status projection: download url, expiry,
object name. -/
structure ResultBlock where
  downloadUrl : String
  expiresAt : Nat
  objectName : String
  deriving DecidableEq, Repr

/-- The projection returned by `GET /jobs/:id`. -/
structure JobResponse where
  jobId : String
  status : Option JobStatus
  timings : Option (List (String × Nat))
  prompt : Option String
  creditAmount : Option Int
  errorMessage : Option String
  result : Option ResultBlock
  deriving DecidableEq, Repr

/-- `buildJobResponse` (jobs router lines 55-83): project the record's
fields, and mint a fresh signed download URL — attached as the `result`
block — exactly when the status is succeeded and the record carries a
result object name.  `mintUrl` stands for `gcs.generateDownloadUrl`. -/
def buildJobResponse (jobId : String) (data : JobRecord)
    (mintUrl : String → String × Nat) : JobResponse :=
  let base : JobResponse :=
    { jobId := jobId, status := data.status, timings := data.timings
      prompt := data.prompt, creditAmount := data.creditAmount
      errorMessage := data.errorMessage, result := none }
  if data.status = some .succeeded then
    match data.resultObjectName with
    | some objectName =>
      let minted := mintUrl objectName
      let block : ResultBlock :=
        { downloadUrl := minted.1, expiresAt := minted.2
          objectName := objectName }
      { base with result := some block }
    | none => base
  else base

/-! ## Shared retry helper (utils/retry.js)

JavaScript numbers are modelled as rationals; `Math.random()` becomes an
explicit draw `randomDraw attempt ∈ [0, 1]` supplied per attempt, and the
side-effecting `fn` becomes a function from the attempt index to its
outcome on that invocation. -/

/-- `calculateDelay` (retry.js lines 1-10): the exponential delay
`baseDelay * factor^(attempt-1)`; with a non-zero jitter fraction the value
is drawn uniformly from `[delay - delay*jitter, delay + delay*jitter]` and
clamped at 0. -/
def calculateDelay (baseDelay : ℚ) (attempt : Nat) (factor jitter randomDraw : ℚ) : ℚ :=
  let delay := baseDelay * factor ^ (attempt - 1)
  if jitter = 0 then delay
  else
    let jitterValue := delay * jitter
    let low := delay - jitterValue
    let high := delay + jitterValue
    max 0 (low + randomDraw * (high - low))

/-- Observables of one `exponentialBackoff` run: the returned value or the
rethrown final error, the number of times `fn` was invoked, and the
inter-attempt delays that were computed (in order). -/
structure BackoffRun (ε α : Type) where
  result : Except ε α
  calls : Nat
  delays : List ℚ
  deriving Repr

/-- The retry loop of `exponentialBackoff` (retry.js lines 25-44), indexed
by the current attempt number and the number of attempts still allowed
after this one: return the first successful value; on failure with
attempts remaining, compute the delay for this attempt, sleep and retry;
on the final attempt rethrow the error. -/
def backoffAux (fn : Nat → Except ε α) (delayOf : Nat → ℚ) :
    Nat → Nat → BackoffRun ε α
  | attempt, 0 => { result := fn attempt, calls := 1, delays := [] }
  | attempt, n + 1 =>
    match fn attempt with
    | .ok v => { result := .ok v, calls := 1, delays := [] }
    | .error _ =>
      let rest := backoffAux fn delayOf (attempt + 1) n
      { result := rest.result, calls := rest.calls + 1
        delays := delayOf attempt :: rest.delays }

/-- `exponentialBackoff` (retry.js lines 12-47) for `attempts ≥ 1`:
run attempts `1, 2, …, attempts`, with the delay after a failed attempt
`a < attempts` computed by `calculateDelay` at that attempt index. -/
def exponentialBackoff (attempts : Nat) (minDelayMs factor jitter : ℚ)
    (randomDraw : Nat → ℚ) (fn : Nat → Except ε α) : BackoffRun ε α :=
  backoffAux fn
    (fun a => calculateDelay minDelayMs a factor jitter (randomDraw a))
    1 (attempts - 1)

/-- The ledger entry `refund` appends (credits.js lines 180-187): positive
amount, kind refund, referencing the original debit's document id. -/
def refundLedgerEntry (u j reason : String) (amount : Int) (i : Nat) : LedgerEntry :=
  { userId := u, jobId := j, amount := amount, type := TxType.refund
    reason := reason, originalTransactionId := some i }

/-- The ledger entry `_consumeFreeCredit` appends on success (credits.js
lines 313-319). -/
def freeDebitEntry (u j : String) : LedgerEntry :=
  { userId := u, jobId := j, amount := -1, type := TxType.free
    reason := "Daily free credit consumed" }

/-! ## Theorems -/

/-- C1 counterexample: a task redelivered for a job whose record is already
in the terminal status `succeeded` is not left untouched — the worker has no
terminal-status guard, so the delivery reprocesses the job, overwrites the
status (here to `failed`), refunds, and rethrows rather than returning
success. -/
theorem C1_counterexample :
    let r0 : JobRecord := { status := some JobStatus.succeeded }
    let t : TaskData :=
      { jobId := "job-1", userId := "user-1", imageBuffer := some "aW1n"
        creditsSpent := 1 }
    let eff := processJob t 1 (RestoreOutcome.fail "provider unavailable") 5 r0
    eff.record.status = some JobStatus.failed ∧
    ¬ eff.record = r0 ∧
    eff.result = Except.error "provider unavailable" ∧
    eff.refunded = true := by
  decide

/-- C1 amended: the worker's record writes are unconditional field-merges —
there is no terminal-status guard.  For any current record (terminal or
not), a delivery with an image buffer ends with the status dictated solely
by this delivery's pipeline outcome, while the merge-writes do preserve the
admission-owned fields they never mention (created time, prompt, credit,
preprocessing, moderation, result object name). -/
theorem C1_amended (t : TaskData) (a : Nat) (o : RestoreOutcome) (now : Nat)
    (r : JobRecord) (buf : String) (himg : t.imageBuffer = some buf) :
    let eff := processJob t a o now r
    eff.record.status =
      (match o with
       | .ok _ _ _ _ => some JobStatus.succeeded
       | .fail _ => some JobStatus.failed) ∧
    eff.record.resultObjectName = r.resultObjectName ∧
    eff.record.creditAmount = r.creditAmount ∧
    eff.record.prompt = r.prompt ∧
    eff.record.createdAt = r.createdAt ∧
    eff.record.preprocessing = r.preprocessing ∧
    eff.record.moderation = r.moderation := by
  cases o <;>
    simp [processJob, himg, workerRunningWrite, workerSucceededWrite,
      workerCatch, workerFailedWrite]

/-- C1 amended, witness at a concrete terminal record. -/
theorem C1_amended_witness :
    let r0 : JobRecord := { status := some JobStatus.succeeded }
    let t : TaskData :=
      { jobId := "job-1w", userId := "user-1", imageBuffer := some "aW1n" }
    let eff := processJob t 2 (RestoreOutcome.fail "boom") 9 r0
    eff.record.status = some JobStatus.failed ∧
    eff.record.resultObjectName = r0.resultObjectName ∧
    eff.record.creditAmount = r0.creditAmount ∧
    eff.record.prompt = r0.prompt ∧
    eff.record.createdAt = r0.createdAt ∧
    eff.record.preprocessing = r0.preprocessing ∧
    eff.record.moderation = r0.moderation := by
  have h := C1_amended
    { jobId := "job-1w", userId := "user-1", imageBuffer := some "aW1n" }
    2 (RestoreOutcome.fail "boom") 9
    { status := some JobStatus.succeeded } "aW1n" rfl
  simpa using h

/-- C2 counterexample: on the very first attempt (0 prior attempts, budget
5, so the attempt budget is not exhausted and the queue engine will retry),
an unhandled pipeline error already makes the worker refund the job's
credit debit and write status=failed — while the engine has not declared
the task terminally failed (the DLQ handler does nothing at 1 < 5
attempts). -/
theorem C2_counterexample :
    let t : TaskData :=
      { jobId := "job-2", userId := "user-2", imageBuffer := some "aW1n"
        creditsSpent := 1 }
    let eff := processJob t 0 (RestoreOutcome.fail "transient failure") 7
      { status := some JobStatus.running }
    eff.refunded = true ∧
    eff.record.status = some JobStatus.failed ∧
    setupDLQIntegration 1 5 = [] := by
  decide

/-- C2 amended: the worker's catch block refunds the credit debit and
merge-writes status=failed on every unhandled error, regardless of how many
attempts remain, and then rethrows so the engine still retries; the
terminal dead-letter path itself (`setupDLQIntegration` /
`moveToDeadLetterQueue`) never issues a refund. -/
theorem C2_amended (t : TaskData) (a : Nat) (msg : String) (now : Nat)
    (r : JobRecord) (buf : String) (himg : t.imageBuffer = some buf)
    (hcred : t.creditsSpent > 0) :
    let eff := processJob t a (RestoreOutcome.fail msg) now r
    eff.refunded = true ∧
    eff.record.status = some JobStatus.failed ∧
    eff.result = Except.error msg ∧
    (∀ attemptsMade maxAttempts : Nat,
      QueueAction.refundCredits ∉ setupDLQIntegration attemptsMade maxAttempts) := by
  refine ⟨?_, ?_, ?_, ?_⟩
  · simp [processJob, himg, workerCatch, hcred]
  · simp [processJob, himg, workerCatch, workerFailedWrite, workerRunningWrite]
  · simp [processJob, himg, workerCatch, workerRunningWrite]
  · intro attemptsMade maxAttempts
    unfold setupDLQIntegration moveToDeadLetterQueue
    split <;> simp

/-- C2 amended, witness. -/
theorem C2_amended_witness :
    let t : TaskData :=
      { jobId := "job-2w", userId := "user-2", imageBuffer := some "aW1n"
        creditsSpent := 1 }
    let eff := processJob t 3 (RestoreOutcome.fail "oops") 8
      { status := some JobStatus.running }
    eff.refunded = true ∧
    eff.record.status = some JobStatus.failed ∧
    eff.result = Except.error "oops" ∧
    (∀ attemptsMade maxAttempts : Nat,
      QueueAction.refundCredits ∉ setupDLQIntegration attemptsMade maxAttempts) := by
  have h := C2_amended
    { jobId := "job-2w", userId := "user-2", imageBuffer := some "aW1n"
      creditsSpent := 1 }
    3 "oops" 8 { status := some JobStatus.running } "aW1n" rfl (by decide)
  simpa using h

/-- C4 failing input: a job created at admission and completed successfully
by the worker ends with status=succeeded but no `resultObjectName` on the
record — the success merge-write stores timings, prompt, analysis and
provider metadata but never a result object name (the restored bytes exist
only in the queue return value) — and consequently the status surface never
attaches a download URL for it. -/
theorem C4_failing_input :
    let r0 := admissionQueuedRecord "user-4" 10 none 1 "free" none none
    let t : TaskData :=
      { jobId := "job-4", userId := "user-4", imageBuffer := some "aW1n"
        creditsSpent := 1 }
    let eff := processJob t 0
      (RestoreOutcome.ok [("classify_ms", 5)] "enhanced" "analysis" "meta") 11 r0
    eff.record.status = some JobStatus.succeeded ∧
    eff.record.resultObjectName = none ∧
    (buildJobResponse "job-4" eff.record
      (fun n => ("https://signed.example/" ++ n, 900))).result = none := by
  decide

/-- C4, general form: for every admission-created record and every
successful delivery, the final record has status succeeded and no result
object name, and `buildJobResponse` — which mints a URL exactly when the
status is succeeded and the object name is present — returns no result
block, whatever URL minter the blob store provides. -/
theorem C4_general (u : String) (now0 now : Nat) (prompt : Option String)
    (amount : Int) (ctype : String) (pre mo : Option String) (t : TaskData)
    (a : Nat) (timings : List (String × Nat)) (ep da pm : String)
    (buf : String) (himg : t.imageBuffer = some buf)
    (mintUrl : String → String × Nat) :
    let r0 := admissionQueuedRecord u now0 prompt amount ctype pre mo
    let eff := processJob t a (RestoreOutcome.ok timings ep da pm) now r0
    eff.record.status = some JobStatus.succeeded ∧
    eff.record.resultObjectName = none ∧
    (buildJobResponse t.jobId eff.record mintUrl).result = none := by
  refine ⟨?_, ?_, ?_⟩ <;>
    simp [processJob, himg, workerSucceededWrite, workerRunningWrite,
      admissionQueuedRecord, buildJobResponse]

/-- C4 general, witness. -/
theorem C4_general_witness :
    let r0 := admissionQueuedRecord "user-4w" 1 none 1 "paid" none none
    let t : TaskData :=
      { jobId := "job-4w", userId := "user-4w", imageBuffer := some "aW1n" }
    let eff := processJob t 0 (RestoreOutcome.ok [] "e" "d" "p") 2 r0
    eff.record.status = some JobStatus.succeeded ∧
    eff.record.resultObjectName = none ∧
    (buildJobResponse "job-4w" eff.record (fun n => (n, 900))).result = none := by
  have h := C4_general "user-4w" 1 2 none 1 "paid" none none
    { jobId := "job-4w", userId := "user-4w", imageBuffer := some "aW1n" }
    0 [] "e" "d" "p" "aW1n" rfl (fun n => (n, 900))
  simpa using h

/-- C5 failing input: idempotency entries are keyed by the client-supplied
key alone.  The middleware's decision never depends on the requesting user,
and concretely, after user-one's admission stored the canonical response
under key K, user-two submitting with the same key K and an
equal-fingerprint payload receives user-one's canonical response as a
replay — instead of an independent admission. -/
theorem C5_failing_input :
    (∀ (store : IdemStore) (req : ApiRequest) (u : String),
      idempotencyHandler store { req with user := u } =
        idempotencyHandler store req) ∧
    (let key := "11111111-2222-3333-4444-555555555555"
     let reqA : ApiRequest :=
       { user := "user-one", idempotencyKey := some key }
     let store : IdemStore :=
       [(key,
         { payloadHash := hashPayload reqA, status := 202
           headers := [("location", "/v1/jobs/job-of-user-one")]
           body := "canonical-response-of-user-one", isJson := true })]
     let reqB : ApiRequest :=
       { user := "user-two", idempotencyKey := some key }
     ¬ reqA.user = reqB.user ∧
     idempotencyHandler store reqB =
       IdemDecision.replay 202 [("location", "/v1/jobs/job-of-user-one")]
         "canonical-response-of-user-one") := by
  constructor
  · intro store req u
    rfl
  · decide

/-- C6 counterexample: the payload fingerprint is computed before multer
parses the multipart body, so the uploaded image bytes never enter it.  Two
submissions with the same key and different uploaded images have equal
fingerprints; the second is replayed from the store rather than rejected
with a 409 conflict. -/
theorem C6_counterexample :
    let key := "aaaaaaaa-bbbb-cccc-dddd-eeeeffff0000"
    let reqA : ApiRequest :=
      { user := "user-six", idempotencyKey := some key
        imageBytes := some [1, 2, 3] }
    let store : IdemStore :=
      [(key,
        { payloadHash := hashPayload reqA, status := 202
          headers := [("location", "/v1/jobs/job-6")]
          body := "first-canonical-response", isJson := true })]
    let reqB : ApiRequest :=
      { user := "user-six", idempotencyKey := some key
        imageBytes := some [9, 9, 9] }
    ¬ reqB.imageBytes = reqA.imageBytes ∧
    hashPayload reqB = hashPayload reqA ∧
    idempotencyHandler store reqB =
      IdemDecision.replay 202 [("location", "/v1/jobs/job-6")]
        "first-canonical-response" ∧
    ¬ idempotencyHandler store reqB =
        IdemDecision.problem idempotencyConflictProblem := by
  decide

/-- C6 amended: for a stored entry under the request's (valid) key, a
matching fingerprint replays the canonical response exactly — stored
status, stored headers minus content-length, stored body — while a
diverging fingerprint (which, for the parsed JSON body, any body change
causes, but a changed multipart image does not) yields the 409
idempotency-conflict problem and leaves the job records untouched, since
the route handler never runs. -/
theorem C6_amended (store : IdemStore) (req : ApiRequest) (key : String)
    (cached : IdemEntry) (hm : req.method = "POST")
    (hk : req.idempotencyKey = some key) (hv : validKeyFormat key = true)
    (hc : store.lookup key = some cached) :
    (cached.payloadHash = hashPayload req →
      idempotencyHandler store req =
        IdemDecision.replay cached.status
          (cached.headers.filter fun h => lowerString h.1 ≠ "content-length")
          cached.body) ∧
    (¬ cached.payloadHash = hashPayload req →
      idempotencyHandler store req =
        IdemDecision.problem idempotencyConflictProblem ∧
      idempotencyConflictProblem.status = 409 ∧
      idempotencyConflictProblem.title = "Idempotency Conflict" ∧
      ∀ (admission : List (String × JobRecord) → List (String × JobRecord))
        (jobs : List (String × JobRecord)),
        jobsRouteRecords store req admission jobs = jobs) := by
  constructor
  · intro hh
    simp [idempotencyHandler, hm, hk, hv, hc, hh]
  · intro hh
    refine ⟨?_, rfl, rfl, ?_⟩
    · simp [idempotencyHandler, hm, hk, hv, hc, hh]
    · intro admission jobs
      simp [jobsRouteRecords, idempotencyHandler, hm, hk, hv, hc, hh]

/-- C6 amended, witness: a conflicting JSON body yields the 409 and leaves
records unchanged. -/
theorem C6_amended_witness :
    let key := "aaaaaaaa-bbbb-cccc-dddd-eeeeffff0001"
    let cached : IdemEntry :=
      { payloadHash := "POST/v1/jobs-original-json-body", status := 202
        headers := [("location", "/v1/jobs/job-6w")]
        body := "first-canonical-response", isJson := true }
    let store : IdemStore := [(key, cached)]
    let req : ApiRequest :=
      { user := "user-six", idempotencyKey := some key
        jsonBody := some "-different-json-body" }
    (cached.payloadHash = hashPayload req →
      idempotencyHandler store req =
        IdemDecision.replay cached.status
          (cached.headers.filter fun h => lowerString h.1 ≠ "content-length")
          cached.body) ∧
    (¬ cached.payloadHash = hashPayload req →
      idempotencyHandler store req =
        IdemDecision.problem idempotencyConflictProblem ∧
      idempotencyConflictProblem.status = 409 ∧
      idempotencyConflictProblem.title = "Idempotency Conflict" ∧
      ∀ (admission : List (String × JobRecord) → List (String × JobRecord))
        (jobs : List (String × JobRecord)),
        jobsRouteRecords store req admission jobs = jobs) := by
  exact C6_amended _ _ _ _ rfl rfl (by decide) rfl

/-- A debit found in a ledger prefix is still the one found after any
entries are appended: `findDebitFrom` returns the first match. -/
theorem findDebitFrom_append_of_found (j : String) (l l2 : List LedgerEntry)
    (i : Nat) (p : Nat × LedgerEntry) (h : findDebitFrom i j l = some p) :
    findDebitFrom i j (l ++ l2) = some p := by
  induction l generalizing i with
  | nil => simp [findDebitFrom] at h
  | cons e rest ih =>
    by_cases hc : e.jobId = j ∧ e.amount < 0
    · rw [findDebitFrom, if_pos hc] at h
      rw [List.cons_append, findDebitFrom, if_pos hc]
      exact h
    · rw [findDebitFrom, if_neg hc] at h
      rw [List.cons_append, findDebitFrom, if_neg hc]
      exact ih (i + 1) h

/-- Appending a debit for job `j` to a ledger containing no entry for `j`
makes that debit the one `findDebitFrom` finds, at index
`start + length`. -/
theorem findDebitFrom_append_single (j : String) (l : List LedgerEntry)
    (d : LedgerEntry) (i : Nat) (hl : ∀ e ∈ l, e.jobId ≠ j)
    (hd : d.jobId = j) (hneg : d.amount < 0) :
    findDebitFrom i j (l ++ [d]) = some (i + l.length, d) := by
  induction l generalizing i with
  | nil =>
    simp only [List.nil_append, List.length_nil, Nat.add_zero]
    rw [findDebitFrom, if_pos ⟨hd, hneg⟩]
  | cons e rest ih =>
    have he : ¬ (e.jobId = j ∧ e.amount < 0) := by
      intro hcontra
      exact hl e (List.mem_cons_self e rest) hcontra.1
    rw [List.cons_append, findDebitFrom, if_neg he]
    have hrest : ∀ x ∈ rest, x.jobId ≠ j := fun x hx =>
      hl x (List.mem_cons_of_mem e hx)
    have := ih (i + 1) hrest
    rw [this]
    have harith : i + 1 + rest.length = i + (e :: rest).length := by
      simp [List.length_cons]
      omega
    rw [harith]

/-- C3 counterexample: with exactly one recorded (paid) debit for job `j1`,
two sequential refunds append two new refund ledger entries and increment
the paid balance twice (5 → 6 → 7): the second refund is not a no-op,
because the debit lookup matches any negative-amount entry for the job
regardless of earlier refunds. -/
theorem C3_counterexample :
    let debit : LedgerEntry :=
      { userId := "user-3", jobId := "job-3", amount := -1, type := TxType.paid
        reason := "Credit consumed for job" }
    let s0 : CreditsState := { free := 0, paid := 5, ledger := [debit] }
    let p1 := CreditsService.refund "user-3" "job-3" 1 "Job failed" s0
    let p2 := CreditsService.refund "user-3" "job-3" 1 "Job failed" p1.2
    p1.1 = true ∧ p2.1 = true ∧
    p2.2.paid = 7 ∧
    p2.2.ledger.length = 3 ∧
    (p2.2.ledger.filter fun e => e.type = TxType.refund).length = 2 := by
  decide

/-- C3 amended: `refund` is not idempotent with respect to the referenced
debit.  Whenever the ledger lookup finds a paid debit for the job, calling
refund twice in sequence increments the paid balance twice and appends two
refund ledger entries, both referencing the same original debit — the
lookup (`jobId == j && amount < 0`) has no notion of an already-refunded
debit. -/
theorem C3_amended (s : CreditsState) (u j reason : String) (amount : Int)
    (i : Nat) (tx : LedgerEntry)
    (hfind : _getTransactionByJobId j s = some (i, tx))
    (htype : tx.type = TxType.paid) :
    (CreditsService.refund u j amount reason s).1 = true ∧
    (CreditsService.refund u j amount reason
        (CreditsService.refund u j amount reason s).2).1 = true ∧
    (CreditsService.refund u j amount reason
        (CreditsService.refund u j amount reason s).2).2.paid
      = s.paid + amount + amount ∧
    (CreditsService.refund u j amount reason
        (CreditsService.refund u j amount reason s).2).2.free = s.free ∧
    (CreditsService.refund u j amount reason
        (CreditsService.refund u j amount reason s).2).2.ledger
      = s.ledger ++ [refundLedgerEntry u j reason amount i,
                     refundLedgerEntry u j reason amount i] := by
  have h1 : CreditsService.refund u j amount reason s =
      (true,
        { free := s.free, paid := s.paid + amount
          ledger := s.ledger ++ [refundLedgerEntry u j reason amount i] }) := by
    unfold CreditsService.refund
    rw [hfind]
    simp [htype, _refundPaidCredits, _recordTransaction, refundLedgerEntry]
  have hfind1 : findDebitFrom 0 j s.ledger = some (i, tx) := hfind
  have hfind2 : _getTransactionByJobId j
      ({ free := s.free, paid := s.paid + amount
         ledger := s.ledger ++ [refundLedgerEntry u j reason amount i] } :
        CreditsState) = some (i, tx) :=
    findDebitFrom_append_of_found j s.ledger _ 0 (i, tx) hfind1
  have h2 : CreditsService.refund u j amount reason
      ({ free := s.free, paid := s.paid + amount
         ledger := s.ledger ++ [refundLedgerEntry u j reason amount i] } :
        CreditsState) =
      (true,
        { free := s.free, paid := s.paid + amount + amount
          ledger := s.ledger ++ [refundLedgerEntry u j reason amount i,
                                 refundLedgerEntry u j reason amount i] }) := by
    unfold CreditsService.refund
    rw [hfind2]
    simp [htype, _refundPaidCredits, _recordTransaction, refundLedgerEntry]
  refine ⟨?_, ?_, ?_, ?_, ?_⟩ <;> simp [h1, h2]

/-- C3 amended, witness. -/
theorem C3_amended_witness :
    let s0 : CreditsState :=
      { free := 1, paid := 4
        ledger := [{ userId := "user-3w", jobId := "job-3w", amount := -2
                     type := TxType.paid
                     reason := "Credit consumed for job" }] }
    (CreditsService.refund "user-3w" "job-3w" 2 "worker_failure" s0).1 = true ∧
    (CreditsService.refund "user-3w" "job-3w" 2 "worker_failure"
        (CreditsService.refund "user-3w" "job-3w" 2 "worker_failure" s0).2).1
      = true ∧
    (CreditsService.refund "user-3w" "job-3w" 2 "worker_failure"
        (CreditsService.refund "user-3w" "job-3w" 2 "worker_failure" s0).2).2.paid
      = 4 + 2 + 2 ∧
    (CreditsService.refund "user-3w" "job-3w" 2 "worker_failure"
        (CreditsService.refund "user-3w" "job-3w" 2 "worker_failure" s0).2).2.free
      = 1 ∧
    (CreditsService.refund "user-3w" "job-3w" 2 "worker_failure"
        (CreditsService.refund "user-3w" "job-3w" 2 "worker_failure" s0).2).2.ledger
      = s0.ledger ++ [refundLedgerEntry "user-3w" "job-3w" "worker_failure" 2 0,
                      refundLedgerEntry "user-3w" "job-3w" "worker_failure" 2 0] := by
  have h := C3_amended
    { free := 1, paid := 4
      ledger := [{ userId := "user-3w", jobId := "job-3w", amount := -2
                   type := TxType.paid
                   reason := "Credit consumed for job" }] }
    "user-3w" "job-3w" "worker_failure" 2 0
    { userId := "user-3w", jobId := "job-3w", amount := -2
      type := TxType.paid, reason := "Credit consumed for job" }
    (by decide) rfl
  simpa using h

/-- C7 counterexample: a free-tier admission whose enqueue fails refunds
the debit (ledger gains a debit and a matching refund, counter restored)
and returns the 500 server error, but the job record is left with
status=queued — the catch block contains no write marking it failed. -/
theorem C7_counterexample :
    let out := submitJob "user-7" none none "job-7" 1 3 none none false 20
      { free := 0, paid := 0, ledger := [] } []
    out.1 = SubmitResult.problemResult internalServerErrorProblem ∧
    (out.2.2.lookup "job-7").map JobRecord.status
      = some (some JobStatus.queued) ∧
    ¬ (out.2.2.lookup "job-7").map JobRecord.status
      = some (some JobStatus.failed) ∧
    out.2.1.free = 0 ∧
    out.2.1.ledger.length = 2 ∧
    (out.2.1.ledger.filter fun e => e.type = TxType.refund).length = 1 := by
  decide

/-- C7 amended: on an enqueue failure after a successful (free-tier) debit
of a fresh job id, the handler refunds the debit before the server error is
returned — the counter and balance are restored and the ledger gains the
debit and a refund referencing it — but the job record is created with
status=queued and never updated: no write marks it failed. -/
theorem C7_amended (s : CreditsState) (jobs : List (String × JobRecord))
    (u j : String) (prompt pre mo : Option String) (cost limit : Int)
    (now : Nat) (hfree0 : 0 ≤ s.free) (hfree : s.free < limit)
    (hcost : 0 < cost) (hfresh : ∀ e ∈ s.ledger, e.jobId ≠ j) :
    (submitJob u none prompt j cost limit pre mo false now s jobs).1
      = SubmitResult.problemResult internalServerErrorProblem ∧
    internalServerErrorProblem.status = 500 ∧
    (submitJob u none prompt j cost limit pre mo false now s jobs).2.2.lookup j
      = some (admissionQueuedRecord u now prompt cost "free" pre mo) ∧
    (admissionQueuedRecord u now prompt cost "free" pre mo).status
      = some JobStatus.queued ∧
    (submitJob u none prompt j cost limit pre mo false now s jobs).2.1.free
      = s.free ∧
    (submitJob u none prompt j cost limit pre mo false now s jobs).2.1.paid
      = s.paid ∧
    (submitJob u none prompt j cost limit pre mo false now s jobs).2.1.ledger
      = s.ledger ++ [freeDebitEntry u j,
                     refundLedgerEntry u j "Job enqueue failed" cost
                       s.ledger.length] := by
  have hnotge : ¬ s.free ≥ limit := not_le.mpr hfree
  have hcad : checkAndDeduct u cost j limit s =
      ({ allowed := true, type := TxType.free
         remainingCredits := limit - s.free - 1 },
       { free := s.free + 1, paid := s.paid
         ledger := s.ledger ++ [freeDebitEntry u j] }) := by
    unfold checkAndDeduct _consumeFreeCredit
    simp [hfree, hnotge, _recordTransaction, freeDebitEntry]
  have hfind : _getTransactionByJobId j
      ({ free := s.free + 1, paid := s.paid
         ledger := s.ledger ++ [freeDebitEntry u j] } : CreditsState)
      = some (s.ledger.length, freeDebitEntry u j) := by
    show findDebitFrom 0 j (s.ledger ++ [freeDebitEntry u j])
      = some (s.ledger.length, freeDebitEntry u j)
    have h := findDebitFrom_append_single j s.ledger (freeDebitEntry u j) 0
      hfresh rfl (by simp [freeDebitEntry])
    simpa using h
  have hpos : (0 : Int) < s.free + 1 := by omega
  have hrefund : CreditsService.refund u j cost "Job enqueue failed"
      ({ free := s.free + 1, paid := s.paid
         ledger := s.ledger ++ [freeDebitEntry u j] } : CreditsState)
      = (true,
         { free := s.free, paid := s.paid
           ledger := (s.ledger ++ [freeDebitEntry u j]) ++
             [refundLedgerEntry u j "Job enqueue failed" cost
               s.ledger.length] }) := by
    unfold CreditsService.refund
    rw [hfind]
    simp [freeDebitEntry, _refundFreeCredit, _recordTransaction,
      refundLedgerEntry, hpos]
  refine ⟨?_, rfl, ?_, rfl, ?_, ?_, ?_⟩ <;>
    simp [submitJob, hcad, hrefund, hcost, TxType.name, List.append_assoc]

/-- C7 amended, witness. -/
theorem C7_amended_witness :
    (submitJob "user-7w" none none "job-7w" 1 3 none none false 21
        { free := 1, paid := 2, ledger := [] } []).1
      = SubmitResult.problemResult internalServerErrorProblem ∧
    internalServerErrorProblem.status = 500 ∧
    (submitJob "user-7w" none none "job-7w" 1 3 none none false 21
        { free := 1, paid := 2, ledger := [] } []).2.2.lookup "job-7w"
      = some (admissionQueuedRecord "user-7w" 21 none 1 "free" none none) ∧
    (admissionQueuedRecord "user-7w" 21 none 1 "free" none none).status
      = some JobStatus.queued ∧
    (submitJob "user-7w" none none "job-7w" 1 3 none none false 21
        { free := 1, paid := 2, ledger := [] } []).2.1.free = 1 ∧
    (submitJob "user-7w" none none "job-7w" 1 3 none none false 21
        { free := 1, paid := 2, ledger := [] } []).2.1.paid = 2 ∧
    (submitJob "user-7w" none none "job-7w" 1 3 none none false 21
        { free := 1, paid := 2, ledger := [] } []).2.1.ledger
      = [] ++ [freeDebitEntry "user-7w" "job-7w",
               refundLedgerEntry "user-7w" "job-7w" "Job enqueue failed" 1 0] := by
  have h := C7_amended { free := 1, paid := 2, ledger := [] } [] "user-7w"
    "job-7w" none none none 1 3 21 (by decide) (by decide) (by decide)
    (by simp)
  simpa using h

/-- C8 counterexample: with the free counter at the daily limit and an
empty paid balance, the admission responds with the 402
insufficient-credits problem, writes no ledger entry and creates no job
record — but the rendered problem body has no `remaining_credits`
extension field (its extras list is empty), contrary to the claim. -/
theorem C8_counterexample :
    let out := submitJob "user-8" none none "job-8" 1 3 none none true 30
      { free := 3, paid := 0, ledger := [] } []
    out.1 = SubmitResult.problemResult insufficientCreditsProblem ∧
    insufficientCreditsProblem.status = 402 ∧
    (problemResponse insufficientCreditsProblem "req-8").extras.lookup
      "remaining_credits" = none ∧
    out.2.1 = { free := 3, paid := 0, ledger := [] } ∧
    out.2.2 = [] := by
  decide

/-- C8 amended: whenever the free counter is at (or beyond) the daily
limit and the paid balance is below the requested amount, `POST /jobs`
fails with the 402 insufficient-credits problem whose body carries only
type, title, status, detail and instance — no `remaining_credits`
extension — and the failed admission appends no ledger entry and creates
no job record. -/
theorem C8_amended (s : CreditsState) (jobs : List (String × JobRecord))
    (u j reqId : String) (prompt pre mo : Option String)
    (amount limit : Int) (now : Nat)
    (hge : limit ≤ s.free) (hlt : s.paid < amount) :
    (submitJob u none prompt j amount limit pre mo true now s jobs).1
      = SubmitResult.problemResult insufficientCreditsProblem ∧
    insufficientCreditsProblem.status = 402 ∧
    (problemResponse insufficientCreditsProblem reqId).extras = [] ∧
    (submitJob u none prompt j amount limit pre mo true now s jobs).2.1 = s ∧
    (submitJob u none prompt j amount limit pre mo true now s jobs).2.2
      = jobs := by
  have hnlt : ¬ s.free < limit := not_lt.mpr hge
  refine ⟨?_, rfl, rfl, ?_, ?_⟩ <;>
    simp [submitJob, checkAndDeduct, _checkAndDeductPaidCredits, hnlt, hlt]

/-- C8 amended, witness. -/
theorem C8_amended_witness :
    (submitJob "user-8w" none none "job-8w" 2 3 none none true 31
        { free := 3, paid := 1, ledger := [] } []).1
      = SubmitResult.problemResult insufficientCreditsProblem ∧
    insufficientCreditsProblem.status = 402 ∧
    (problemResponse insufficientCreditsProblem "req-8w").extras = [] ∧
    (submitJob "user-8w" none none "job-8w" 2 3 none none true 31
        { free := 3, paid := 1, ledger := [] } []).2.1
      = { free := 3, paid := 1, ledger := [] } ∧
    (submitJob "user-8w" none none "job-8w" 2 3 none none true 31
        { free := 3, paid := 1, ledger := [] } []).2.2 = [] := by
  have h := C8_amended { free := 3, paid := 1, ledger := [] } [] "user-8w"
    "job-8w" "req-8w" none none none 2 3 31 (by decide) (by decide)
  simpa using h

/-- A refund whose read and conditional decrement run back-to-back (no
other step interleaved between its two Redis commands) has exactly the
sequential refund effect on the counter. -/
theorem refund_pair_eq_seq (limit : Int) (t : Nat) (st : FreeMicroState) :
    (freeMicroExec [FreeMicroOp.refundRead t, FreeMicroOp.refundDecr t] st).counter
      = freeSeqStep limit st.counter FreeOp.refundFree := by
  simp only [freeMicroExec, freeMicroStep, freeSeqStep, List.foldl,
    List.lookup, beq_self_eq_true]
  split <;> simp

/-- C9 counterexample: the free refund's zero-check and decrement are two
separate Redis commands, so two overlapping refunds starting from
counter = 1 both observe the value 1 and both decrement, driving the
counter to -1 — below zero, against the claimed invariant for arbitrary
interleavings. -/
theorem C9_counterexample :
    (freeMicroExec
      [FreeMicroOp.refundRead 0, FreeMicroOp.refundRead 1,
       FreeMicroOp.refundDecr 1, FreeMicroOp.refundDecr 0]
      { counter := 1 }).counter = -1 ∧
    (freeMicroExec
      [FreeMicroOp.refundRead 0, FreeMicroOp.refundRead 1,
       FreeMicroOp.refundDecr 1, FreeMicroOp.refundDecr 0]
      { counter := 1 }).counter < 0 := by
  decide

/-- C9 amended: in every execution in which refunds do not overlap each
other (each refund's read and decrement run back-to-back, which
`refund_pair_eq_seq` shows is the sequential refund step; the consume
script is a single atomic eval in any schedule), the free counter stays
within `[0, daily_limit]`: the consume script never increments past the
limit and the guarded refund never decrements below zero. -/
theorem C9_amended (limit : Int) (ops : List FreeOp) (c : Int)
    (h0 : 0 ≤ c) (h1 : c ≤ limit) :
    0 ≤ freeSeqExec limit ops c ∧ freeSeqExec limit ops c ≤ limit := by
  induction ops generalizing c with
  | nil => exact ⟨h0, h1⟩
  | cons op rest ih =>
    have hstep : 0 ≤ freeSeqStep limit c op ∧ freeSeqStep limit c op ≤ limit := by
      cases op <;> simp only [freeSeqStep] <;> split <;> omega
    exact ih (freeSeqStep limit c op) hstep.1 hstep.2

/-- C9 amended, witness. -/
theorem C9_amended_witness :
    0 ≤ freeSeqExec 3
      [FreeOp.consume, FreeOp.consume, FreeOp.refundFree, FreeOp.consume,
       FreeOp.consume, FreeOp.consume, FreeOp.refundFree, FreeOp.refundFree,
       FreeOp.refundFree, FreeOp.refundFree] 0 ∧
    freeSeqExec 3
      [FreeOp.consume, FreeOp.consume, FreeOp.refundFree, FreeOp.consume,
       FreeOp.consume, FreeOp.consume, FreeOp.refundFree, FreeOp.refundFree,
       FreeOp.refundFree, FreeOp.refundFree] 0 ≤ 3 :=
  C9_amended 3
    [FreeOp.consume, FreeOp.consume, FreeOp.refundFree, FreeOp.consume,
     FreeOp.consume, FreeOp.consume, FreeOp.refundFree, FreeOp.refundFree,
     FreeOp.refundFree, FreeOp.refundFree] 0 (by decide) (by decide)

/-- The retry loop makes at most `n + 1` invocations when `n` retries
remain. -/
theorem backoffAux_calls_le {ε α : Type} (fn : Nat → Except ε α)
    (d : Nat → ℚ) (k n : Nat) : (backoffAux fn d k n).calls ≤ n + 1 := by
  induction n generalizing k with
  | zero => simp [backoffAux]
  | succ n ih =>
    unfold backoffAux
    cases hfk : fn k with
    | ok v => simp
    | error e =>
      dsimp only
      exact Nat.succ_le_succ (ih (k + 1))

/-- If attempts `k, …, j-1` fail and attempt `j` (within budget) succeeds,
the loop returns attempt `j`'s value after exactly `j - k + 1`
invocations. -/
theorem backoffAux_first_ok {ε α : Type} (fn : Nat → Except ε α)
    (d : Nat → ℚ) (n k j : Nat) (v : α) (hj1 : k ≤ j) (hj2 : j ≤ k + n)
    (hfail : ∀ i, k ≤ i → i < j → ∃ e, fn i = Except.error e)
    (hok : fn j = Except.ok v) :
    (backoffAux fn d k n).result = Except.ok v ∧
    (backoffAux fn d k n).calls = j - k + 1 := by
  induction n generalizing k with
  | zero =>
    have hjk : j = k := by omega
    subst hjk
    simp [backoffAux, hok]
  | succ n ih =>
    by_cases hjk : j = k
    · subst hjk
      unfold backoffAux
      rw [hok]
      simp
    · have hk : k < j := by omega
      obtain ⟨e, he⟩ := hfail k le_rfl hk
      unfold backoffAux
      rw [he]
      dsimp only
      have ihres := ih (k + 1) (by omega) (by omega)
        (fun i hi1 hi2 => hfail i (by omega) hi2)
      refine ⟨ihres.1, ?_⟩
      rw [ihres.2]
      omega

/-- If every attempt in the budget fails, the loop rethrows the final
attempt's outcome after exactly `n + 1` invocations. -/
theorem backoffAux_all_error {ε α : Type} (fn : Nat → Except ε α)
    (d : Nat → ℚ) (n k : Nat)
    (hfail : ∀ i, k ≤ i → i ≤ k + n → ∃ e, fn i = Except.error e) :
    (backoffAux fn d k n).result = fn (k + n) ∧
    (backoffAux fn d k n).calls = n + 1 := by
  induction n generalizing k with
  | zero => simp [backoffAux]
  | succ n ih =>
    obtain ⟨e, he⟩ := hfail k le_rfl (by omega)
    unfold backoffAux
    rw [he]
    dsimp only
    have ihres := ih (k + 1) (fun i h1 h2 => hfail i (by omega) (by omega))
    constructor
    · rw [ihres.1]
      congr 1
      omega
    · rw [ihres.2]

/-- Every delay the loop computes is the delay function at some attempt
index that was retried. -/
theorem backoffAux_delays_mem {ε α : Type} (fn : Nat → Except ε α)
    (d : Nat → ℚ) (k n : Nat) :
    ∀ q ∈ (backoffAux fn d k n).delays,
      ∃ a, k ≤ a ∧ a < k + n ∧ q = d a := by
  induction n generalizing k with
  | zero => simp [backoffAux]
  | succ n ih =>
    unfold backoffAux
    cases hfk : fn k with
    | ok v => simp
    | error e =>
      dsimp only
      intro q hq
      rcases List.mem_cons.mp hq with h | h
      · exact ⟨k, le_rfl, by omega, h⟩
      · obtain ⟨a, ha1, ha2, ha3⟩ := ih (k + 1) q h
        exact ⟨a, by omega, by omega, ha3⟩

/-- The jittered delay is non-negative and lies in the jitter band
`[d·(1-j), d·(1+j)]` around `d = base · factor^(attempt-1)`, for
non-negative base and factor, jitter fraction in `[0,1]`, and a uniform
draw in `[0,1]`. -/
theorem calculateDelay_band (base factor jitter r : ℚ) (a : Nat)
    (hb : 0 ≤ base) (hf : 0 ≤ factor) (hj0 : 0 ≤ jitter) (hj1 : jitter ≤ 1)
    (hr0 : 0 ≤ r) (hr1 : r ≤ 1) :
    base * factor ^ (a - 1) * (1 - jitter)
        ≤ calculateDelay base a factor jitter r ∧
    calculateDelay base a factor jitter r
        ≤ base * factor ^ (a - 1) * (1 + jitter) ∧
    0 ≤ calculateDelay base a factor jitter r := by
  have hd : 0 ≤ base * factor ^ (a - 1) :=
    mul_nonneg hb (pow_nonneg hf _)
  set D := base * factor ^ (a - 1) with hD
  by_cases hz : jitter = 0
  · have hval : calculateDelay base a factor jitter r = D := by
      unfold calculateDelay
      rw [if_pos hz]
    rw [hval, hz]
    refine ⟨by ring_nf; exact le_refl _, by ring_nf; exact le_refl _, hd⟩
  · have hval : calculateDelay base a factor jitter r
        = max 0 ((D - D * jitter) + r * ((D + D * jitter) - (D - D * jitter))) := by
      unfold calculateDelay
      rw [if_neg hz]
    have hdj : 0 ≤ D * jitter := mul_nonneg hd hj0
    have hmn : 0 ≤ D - D * jitter := by nlinarith
    have hspan : (D + D * jitter) - (D - D * jitter) = 2 * (D * jitter) := by
      ring
    have hprod : 0 ≤ r * ((D + D * jitter) - (D - D * jitter)) := by
      rw [hspan]
      exact mul_nonneg hr0 (by linarith)
    have hub : r * ((D + D * jitter) - (D - D * jitter)) ≤ 2 * (D * jitter) := by
      rw [hspan]
      nlinarith
    have hlin : 0 ≤ (D - D * jitter) + r * ((D + D * jitter) - (D - D * jitter)) := by
      linarith
    rw [hval, max_eq_right hlin]
    have hlow : D * (1 - jitter) = D - D * jitter := by ring
    have hhigh : D * (1 + jitter) = D + D * jitter := by ring
    refine ⟨by rw [hlow]; linarith, by rw [hhigh]; linarith, hlin⟩

/-- C10: for any attempt budget `attempts ≥ 1` and any behaviour of `fn`,
the shared retry helper terminates having invoked `fn` at most `attempts`
times; the first successful invocation's value is returned with no further
invocation; if every invocation fails, the final invocation's error is
rethrown; and every computed inter-attempt delay is `calculateDelay` at its
attempt index, non-negative, and inside the jitter band
`[base·factor^(a-1)·(1-jitter), base·factor^(a-1)·(1+jitter)]`. -/
theorem C10_retry_helper {ε α : Type} (attempts : Nat)
    (minDelayMs factor jitter : ℚ) (randomDraw : Nat → ℚ)
    (fn : Nat → Except ε α) (hatt : 1 ≤ attempts) (hb : 0 ≤ minDelayMs)
    (hf : 0 ≤ factor) (hj0 : 0 ≤ jitter) (hj1 : jitter ≤ 1)
    (hr : ∀ a, 0 ≤ randomDraw a ∧ randomDraw a ≤ 1) :
    (exponentialBackoff attempts minDelayMs factor jitter randomDraw fn).calls
        ≤ attempts ∧
    (∀ j v, 1 ≤ j → j ≤ attempts →
      (∀ i, 1 ≤ i → i < j → ∃ e, fn i = Except.error e) →
      fn j = Except.ok v →
      (exponentialBackoff attempts minDelayMs factor jitter randomDraw fn).result
          = Except.ok v ∧
      (exponentialBackoff attempts minDelayMs factor jitter randomDraw fn).calls
          = j) ∧
    ((∀ i, 1 ≤ i → i ≤ attempts → ∃ e, fn i = Except.error e) →
      (exponentialBackoff attempts minDelayMs factor jitter randomDraw fn).result
          = fn attempts ∧
      (exponentialBackoff attempts minDelayMs factor jitter randomDraw fn).calls
          = attempts) ∧
    (∀ q ∈ (exponentialBackoff attempts minDelayMs factor jitter randomDraw fn).delays,
      ∃ a, 1 ≤ a ∧ a < attempts ∧
        q = calculateDelay minDelayMs a factor jitter (randomDraw a) ∧
        0 ≤ q ∧
        minDelayMs * factor ^ (a - 1) * (1 - jitter) ≤ q ∧
        q ≤ minDelayMs * factor ^ (a - 1) * (1 + jitter)) := by
  have hsum : 1 + (attempts - 1) = attempts := by omega
  refine ⟨?_, ?_, ?_, ?_⟩
  · have h := backoffAux_calls_le fn
      (fun a => calculateDelay minDelayMs a factor jitter (randomDraw a))
      1 (attempts - 1)
    unfold exponentialBackoff
    omega
  · intro j v hj1 hj2 hfail hok
    have h := backoffAux_first_ok fn
      (fun a => calculateDelay minDelayMs a factor jitter (randomDraw a))
      (attempts - 1) 1 j v hj1 (by omega) hfail hok
    unfold exponentialBackoff
    exact ⟨h.1, by omega⟩
  · intro hfail
    have h := backoffAux_all_error fn
      (fun a => calculateDelay minDelayMs a factor jitter (randomDraw a))
      (attempts - 1) 1 (fun i h1 h2 => hfail i h1 (by omega))
    unfold exponentialBackoff
    refine ⟨?_, by omega⟩
    rw [h.1, hsum]
  · intro q hq
    have h := backoffAux_delays_mem fn
      (fun a => calculateDelay minDelayMs a factor jitter (randomDraw a))
      1 (attempts - 1) q hq
    obtain ⟨a, ha1, ha2, ha3⟩ := h
    have hband := calculateDelay_band minDelayMs factor jitter
      (randomDraw a) a hb hf hj0 hj1 (hr a).1 (hr a).2
    exact ⟨a, ha1, by omega, ha3, by rw [ha3]; exact hband.2.2,
      by rw [ha3]; exact hband.1, by rw [ha3]; exact hband.2.1⟩

/-- C10 witness: the documented defaults (3 attempts, 500 ms base, factor
2, 30% jitter) with a pipeline that fails twice then succeeds. -/
theorem C10_retry_helper_witness :
    (exponentialBackoff 3 500 2 (3/10) (fun _ => 1/2)
        (fun i => if i < 3 then Except.error "transient"
                  else Except.ok "restored")).calls ≤ 3 ∧
    (∀ j v, 1 ≤ j → j ≤ 3 →
      (∀ i, 1 ≤ i → i < j →
        ∃ e, (fun i => if i < 3 then Except.error "transient"
                       else Except.ok "restored") i = Except.error e) →
      (fun i => if i < 3 then Except.error "transient"
                else Except.ok "restored") j = Except.ok v →
      (exponentialBackoff 3 500 2 (3/10) (fun _ => 1/2)
          (fun i => if i < 3 then Except.error "transient"
                    else Except.ok "restored")).result = Except.ok v ∧
      (exponentialBackoff 3 500 2 (3/10) (fun _ => 1/2)
          (fun i => if i < 3 then Except.error "transient"
                    else Except.ok "restored")).calls = j) ∧
    ((∀ i, 1 ≤ i → i ≤ 3 →
        ∃ e, (fun i => if i < 3 then Except.error "transient"
                       else Except.ok "restored") i = Except.error e) →
      (exponentialBackoff 3 500 2 (3/10) (fun _ => 1/2)
          (fun i => if i < 3 then Except.error "transient"
                    else Except.ok "restored")).result
        = (fun i => if i < 3 then Except.error "transient"
                    else Except.ok "restored") 3 ∧
      (exponentialBackoff 3 500 2 (3/10) (fun _ => 1/2)
          (fun i => if i < 3 then Except.error "transient"
                    else Except.ok "restored")).calls = 3) ∧
    (∀ q ∈ (exponentialBackoff 3 500 2 (3/10) (fun _ => 1/2)
        (fun i => if i < 3 then Except.error "transient"
                  else Except.ok "restored")).delays,
      ∃ a, 1 ≤ a ∧ a < 3 ∧
        q = calculateDelay 500 a 2 (3/10) ((fun _ => (1/2 : ℚ)) a) ∧
        0 ≤ q ∧
        500 * 2 ^ (a - 1) * (1 - 3/10) ≤ q ∧
        q ≤ 500 * 2 ^ (a - 1) * (1 + 3/10)) := by
  exact C10_retry_helper 3 500 2 (3/10) (fun _ => 1/2)
    (fun i => if i < 3 then Except.error "transient" else Except.ok "restored")
    (by norm_num) (by norm_num) (by norm_num) (by norm_num) (by norm_num)
    (fun a => by norm_num)
